import Mathlib

/-!
Verification of `main.py` of the dropbox-downloader repository.

The development shallowly embeds the script's logic:

* the pure path computations of `download_dropbox_folder` (full remote
  path, local-relative path, local file path), together with the pieces of
  CPython `posixpath` semantics they rely on (`rstrip`/`lstrip`,
  `os.path.join`, `os.path.dirname`, `os.path.normpath`, `os.path.abspath`,
  `os.path.relpath`);
* `load_credentials` and `get_dropbox_client`, with the file system,
  console and OAuth2 exchange as explicit inputs;
* the recursive traversal of `download_dropbox_folder` as a fuel-bounded
  interpreter over a stubbed Dropbox API, recording an event trace
  (listing calls, per-entry processing, download attempts, sleeps,
  console reports).
-/

namespace DropboxDownloader

/-! ## Python string and posixpath primitives -/

/-- Python `s.rstrip("/")`: remove every trailing `'/'`. -/
def pyRstripSlash (s : String) : String :=
  ⟨(s.data.reverse.dropWhile (fun c => c == '/')).reverse⟩

/-- Python `s.lstrip("/")`: remove every leading `'/'`. -/
def pyLstripSlash (s : String) : String :=
  ⟨s.data.dropWhile (fun c => c == '/')⟩

/-- Does the string start with `'/'`? (posix `isabs`). -/
def startsWithSlash (s : String) : Bool :=
  s.data.head? == some '/'

/-- Does the string end with `'/'`? -/
def endsWithSlash (s : String) : Bool :=
  s.data.getLast? == some '/'

/-- Python `str.split('/')` on the character list: splitting `""` yields
one empty component, exactly as in Python. -/
def splitSlash : List Char → List (List Char)
  | [] => [[]]
  | c :: rest =>
    let r := splitSlash rest
    if c == '/' then [] :: r
    else
      match r with
      | [] => [[c]]
      | h :: t => (c :: h) :: t

/-- Python `'/'.join(parts)`. -/
def joinSlash : List String → String
  | [] => ""
  | [x] => x
  | x :: rest => x ++ "/" ++ joinSlash rest

/-- CPython `posixpath.normpath` counts the leading slashes specially:
exactly two leading slashes are preserved as two, any other positive
number collapses to one. -/
def initialSlashes (p : String) : Nat :=
  match p.data with
  | '/' :: '/' :: '/' :: _ => 1
  | '/' :: '/' :: _ => 2
  | '/' :: _ => 1
  | _ => 0

/-- The component loop of CPython `posixpath.normpath`: drop empty and
`"."` components, resolve `".."` against the accumulated components. -/
def normAux (hasSlash : Bool) : List String → List String → List String
  | acc, [] => acc
  | acc, comp :: rest =>
    if comp == "" || comp == "." then normAux hasSlash acc rest
    else if comp != ".." || (!hasSlash && acc.isEmpty)
        || (!acc.isEmpty && acc.getLast? == some "..") then
      normAux hasSlash (acc ++ [comp]) rest
    else if !acc.isEmpty then normAux hasSlash acc.dropLast rest
    else normAux hasSlash acc rest

/-- CPython `posixpath.normpath`. -/
def posixNormpath (p : String) : String :=
  if p == "" then "."
  else
    let isl := initialSlashes p
    let comps := (splitSlash p.data).map (fun l => (⟨l⟩ : String))
    let newComps := normAux (isl != 0) [] comps
    let res := (⟨List.replicate isl '/'⟩ : String) ++ joinSlash newComps
    if res == "" then "." else res

/-- CPython `posixpath.join` for two arguments. -/
def posixJoin (a b : String) : String :=
  if startsWithSlash b then b
  else if a == "" || endsWithSlash a then a ++ b
  else a ++ "/" ++ b

/-- CPython `posixpath.abspath`, with the process working directory as an
explicit parameter. -/
def posixAbspath (cwd p : String) : String :=
  if startsWithSlash p then posixNormpath p
  else posixNormpath (posixJoin cwd p)

/-- Length of the longest common prefix of two component lists
(`genericpath.commonprefix` on two lists). -/
def commonPrefixLen : List String → List String → Nat
  | a :: as, b :: bs => if a = b then commonPrefixLen as bs + 1 else 0
  | _, _ => 0

/-- CPython `posixpath.relpath path start` (the `ValueError` branch for an
empty `path` is outside the domain used here: every full remote path the
script builds starts with `'/'`). -/
def posixRelpath (cwd path start : String) : String :=
  let startList :=
    ((splitSlash (posixAbspath cwd start).data).map
      (fun l => (⟨l⟩ : String))).filter (fun x => x != "")
  let pathList :=
    ((splitSlash (posixAbspath cwd path).data).map
      (fun l => (⟨l⟩ : String))).filter (fun x => x != "")
  let i := commonPrefixLen startList pathList
  let relList := List.replicate (startList.length - i) ".." ++ pathList.drop i
  if relList.isEmpty then "." else joinSlash relList

/-- CPython `posixpath.dirname`. -/
def posixDirname (p : String) : String :=
  let keep := p.data.length - (p.data.reverse.takeWhile (fun c => c != '/')).length
  let head := p.data.take keep
  if head.isEmpty || head.all (fun c => c == '/') then ⟨head⟩
  else ⟨(head.reverse.dropWhile (fun c => c == '/')).reverse⟩

/-! ## Path computations of `download_dropbox_folder` (main.py 100-110) -/

/-- Python `x in (None, "", "/")` — the root-like test applied to both
`current_path` and `dropbox_root`. -/
def rootLike (p : Option String) : Bool :=
  p == none || p == some "" || p == some "/"

/-- main.py 100-103: the full Dropbox path of an entry. -/
def buildFullPath (currentPath : Option String) (name : String) : String :=
  if rootLike currentPath then "/" ++ name
  else pyRstripSlash (currentPath.getD "") ++ "/" ++ name

/-- main.py 106-109: the local path relative to the Dropbox root. -/
def computeRelPath (cwd : String) (fullPath : String) (dropboxRoot : Option String) : String :=
  if rootLike dropboxRoot then pyLstripSlash fullPath
  else posixRelpath cwd fullPath (dropboxRoot.getD "")

/-- main.py 110: `os.path.join(local_root, rel_path)`. -/
def localFilePath (cwd localRoot : String) (fullPath : String)
    (dropboxRoot : Option String) : String :=
  posixJoin localRoot (computeRelPath cwd fullPath dropboxRoot)

/-! ## Exceptions

The taxonomy the script distinguishes: `dropbox.exceptions.ApiError` whose
payload answers `is_rate_limit()`, any other `ApiError`, and every other
exception (`requests` errors, `OSError`, ...). -/

inductive Exn
  | rateLimit
  | apiOther
  | other
deriving DecidableEq, Repr

/-- Python `isinstance(e, ApiError)`. -/
def Exn.isApiError : Exn → Bool
  | .rateLimit => true
  | .apiOther => true
  | .other => false

/-- Python `e.error.is_rate_limit()` (meaningful only for `ApiError`s). -/
def Exn.isRateLimit : Exn → Bool
  | .rateLimit => true
  | _ => false

/-! ## Credential manager (main.py 25-79) -/

/-- A JSON value, as returned by `json.load`; `null` doubles as Python
`None`, exactly as `json.load` maps JSON `null` to `None`. -/
inductive JsonValue
  | null
  | bool (b : Bool)
  | num (n : Int)
  | str (s : String)
  | arr (xs : List JsonValue)
  | obj (kvs : List (String × JsonValue))

/-- Joint outcome of `open("dropbox_credentials.json")` and `json.load`:
the open call raises `FileNotFoundError`, some other exception is raised
while reading or parsing, or parsing returns a JSON value. -/
inductive ReadOutcome
  | fileNotFound
  | readOrParseError (e : Exn)
  | parsed (v : JsonValue)

/-- main.py 25-33: `load_credentials`. Only `FileNotFoundError` is caught
(returning Python `None`, i.e. `JsonValue.null`); everything else
propagates. -/
def load_credentials : ReadOutcome → Except Exn JsonValue
  | .fileNotFound => .ok .null
  | .readOrParseError e => .error e
  | .parsed v => .ok v

/-- The credentials dict `{"access_token": ..., "refresh_token": ...}`. -/
structure Credentials where
  access_token : String
  refresh_token : String
deriving DecidableEq, Repr

/-- The result of `auth_flow.finish(auth_code)`. -/
structure OAuthResult where
  access_token : String
  refresh_token : String
deriving DecidableEq, Repr

/-- A `dropbox.Dropbox(...)` handle: the constructor stores its
arguments. -/
structure DropboxClient where
  oauth2_refresh_token : String
  app_key : String
  app_secret : String
deriving DecidableEq, Repr

def APP_KEY : String := "YOUR_APP_KEY"

def APP_SECRET : String := "YOUR_APP_SECRET"

/-- Python `str.strip()` whitespace set (the ASCII part used by
authorization codes). -/
def isPyWs (c : Char) : Bool :=
  c == ' ' || c == '\t' || c == '\n' || c == '\r' || c == '\x0b' || c == '\x0c'

/-- Python `s.strip()`. -/
def pyStrip (s : String) : String :=
  ⟨((s.data.dropWhile isPyWs).reverse.dropWhile isPyWs).reverse⟩

/-- Observable events of `get_dropbox_client`. -/
inductive AuthEv
  | printAuthInstructions (url : String)
  | promptCode
  | finishCall (code : String)
  | saveCredentials (c : Credentials)
  | printAuthError
  | printClientError
deriving DecidableEq, Repr

/-- Stubbed collaborators of `get_dropbox_client`: the stored-credentials
load result, `auth_flow.start()`, the console input line, the
`auth_flow.finish` exchange, and whether the `dropbox.Dropbox`
constructor raises for a given refresh token. -/
structure AuthEnv where
  stored : Option Credentials
  authorizeUrl : String
  inputLine : String
  finish : String → Except Exn OAuthResult
  ctorFails : String → Bool

/-- main.py 70-79: build the client from `credentials["refresh_token"]`,
returning `None` on a constructor exception. -/
def buildClient (env : AuthEnv) (credentials : Credentials)
    (evs : List AuthEv) : Option DropboxClient × List AuthEv :=
  if env.ctorFails credentials.refresh_token then
    (none, evs ++ [.printClientError])
  else
    (some ⟨credentials.refresh_token, APP_KEY, APP_SECRET⟩, evs)

/-- main.py 44-79: `get_dropbox_client`. -/
def get_dropbox_client (env : AuthEnv) : Option DropboxClient × List AuthEv :=
  match env.stored with
  | some credentials => buildClient env credentials []
  | none =>
    let evs := [AuthEv.printAuthInstructions env.authorizeUrl, AuthEv.promptCode]
    let auth_code := pyStrip env.inputLine
    match env.finish auth_code with
    | .error _ => (none, evs ++ [.finishCall auth_code, .printAuthError])
    | .ok r =>
      let credentials : Credentials := ⟨r.access_token, r.refresh_token⟩
      buildClient env credentials
        (evs ++ [.finishCall auth_code, .saveCredentials credentials])

/-! ## Folder downloader (main.py 82-165)

The traversal is a fuel-bounded interpreter over a stubbed Dropbox API.
Every remote call, console line, sleep and directory creation is recorded
as an event, so that the claims about call ordering, retries and failure
isolation are statements about the trace. -/

/-- One listing record (`FileMetadata` with `name`/`id`, or
`FolderMetadata` with `name`). -/
inductive Entry
  | file (name id : String)
  | folder (name : String)
deriving DecidableEq, Repr

def entryName : Entry → String
  | .file n _ => n
  | .folder n => n

/-- One page of `files_list_folder` / `files_list_folder_continue`. -/
structure Page where
  entries : List Entry
  hasMore : Bool
  cursor : Nat
deriving DecidableEq, Repr

/-- The stubbed collaborators of `download_dropbox_folder`: the `rlkey`
extracted from the shared link (`parse_qs` never yields an empty value,
but truthiness is still tested as in the script), and the four remote
operations; download stubs receive the index of the call (how many calls
of that kind happened before), so a stub may fail once and then
succeed. -/
structure Env where
  rlkey : Option String
  listFolder : String → Except Exn Page
  listContinue : Nat → Except Exn Page
  direct : Nat → String → Except Exn Unit
  api : Nat → String → String → Except Exn Unit

/-- Observable events of the traversal. -/
inductive Ev
  | listFolderCall (path : String)
  | listContinueCall (cursor : Nat)
  | processEntry (name fullPath localPath : String)
  | makedirs (dir : String)
  | directGet (url : String)
  | apiDownload (localPath entryId : String)
  | sleep (secs : Nat)
  | printDownloaded (fullPath : String)
  | printError (fullPath : String)
  | printRetrySuccess (fullPath : String)
  | printRetryFailed (fullPath : String)
  | printFolderError (path : Option String)
deriving DecidableEq, Repr

/-- Interpreter state: counters for the download stubs and the event
trace. -/
structure St where
  dCount : Nat
  aCount : Nat
  evs : List Ev
deriving DecidableEq, Repr

def St.emit (st : St) (e : Ev) : St :=
  { st with evs := st.evs ++ [e] }

/-- The fixed configuration of one run: `local_root`, `dropbox_root`, and
the process working directory consulted by `os.path.relpath`. -/
structure Cfg where
  localRoot : String
  dropboxRoot : Option String
  cwd : String

/-- main.py 95: `"" if current_path is None else current_path`. -/
def listPathOf : Option String → String
  | none => ""
  | some p => p

/-- main.py 126: the direct-download URL template. -/
def directUrl (id name rk : String) : String :=
  "https://www.dropbox.com/scl/fi/" ++ id ++ "/" ++ name ++ "?dl=1&rlkey=" ++ rk

/-- Python truthiness of the extracted `rlkey` (`if rlkey:`). -/
def truthy : Option String → Bool
  | none => false
  | some s => !s.isEmpty

/-- main.py 129-142: `requests.get(file_url, stream=True)`,
`raise_for_status`, and the chunked write, as one stubbed operation. -/
def callDirect (env : Env) (st : St) (url : String) : St × Except Exn Unit :=
  ({ st with dCount := st.dCount + 1, evs := st.evs ++ [.directGet url] },
    env.direct st.dCount url)

/-- main.py 146/153: `dbx.files_download_to_file(local_file_path, entry.id)`. -/
def callApi (env : Env) (st : St) (localPath id : String) : St × Except Exn Unit :=
  ({ st with aCount := st.aCount + 1, evs := st.evs ++ [.apiDownload localPath id] },
    env.api st.aCount localPath id)

/-- main.py 148-156: the `except Exception as e` handler around a file
download.  A rate-limit `ApiError` triggers `time.sleep(2)` and one
API-mediated retry whose own `except` clause catches only `ApiError`;
any other retry exception propagates (to the folder-level handler). -/
def handleDownloadError (env : Env) (st : St) (fullPath localPath id : String)
    (e : Exn) : St × Except Exn Unit :=
  let st1 := st.emit (.printError fullPath)
  if e.isApiError && e.isRateLimit then
    let st2 := st1.emit (.sleep 2)
    match callApi env st2 localPath id with
    | (st3, .ok _) => (st3.emit (.printRetrySuccess fullPath), .ok ())
    | (st3, .error e2) =>
      if e2.isApiError then (st3.emit (.printRetryFailed fullPath), .ok ())
      else (st3, .error e2)
  else (st1, .ok ())

/-- main.py 117-156: processing of one `FileMetadata` entry:
`os.makedirs(dirname, exist_ok=True)`, then the direct download when the
shared link carries a truthy `rlkey`, otherwise the API-mediated
download; exceptions go to `handleDownloadError`. -/
def processFile (env : Env) (st : St) (name id fullPath localPath : String) :
    St × Except Exn Unit :=
  let st1 := st.emit (.makedirs (posixDirname localPath))
  if truthy env.rlkey then
    let url := directUrl id name (env.rlkey.getD "")
    match callDirect env st1 url with
    | (st2, .ok _) => (st2.emit (.printDownloaded fullPath), .ok ())
    | (st2, .error e) => handleDownloadError env st2 fullPath localPath id e
  else
    match callApi env st1 localPath id with
    | (st2, .ok _) => (st2.emit (.printDownloaded fullPath), .ok ())
    | (st2, .error e) => handleDownloadError env st2 fullPath localPath id e

/-- main.py 98-160: processing of one entry — path pair computation, the
`Processing entry` line, then the file download or the recursive folder
call (`recur`, which never raises: the callee catches its own
exceptions). -/
def processEntryWith (recur : Option String → St → St) (env : Env) (cfg : Cfg)
    (currentPath : Option String) (st : St) (e : Entry) : St × Except Exn Unit :=
  let name := entryName e
  let fullPath := buildFullPath currentPath name
  let localPath := localFilePath cfg.cwd cfg.localRoot fullPath cfg.dropboxRoot
  let st1 := st.emit (.processEntry name fullPath localPath)
  match e with
  | .file n i => processFile env st1 n i fullPath localPath
  | .folder _ => (recur (some fullPath) st1, .ok ())

/-- The `for entry in result.entries` loop; an uncaught exception aborts
the loop and propagates. -/
def processEntriesWith (recur : Option String → St → St) (env : Env) (cfg : Cfg)
    (currentPath : Option String) : St → List Entry → St × Except Exn Unit
  | st, [] => (st, .ok ())
  | st, e :: rest =>
    match processEntryWith recur env cfg currentPath st e with
    | (st1, .ok _) => processEntriesWith recur env cfg currentPath st1 rest
    | (st1, .error ex) => (st1, .error ex)

/-- main.py 97-163: the `while True` pagination loop — process the current
page, stop when `has_more` is false, otherwise fetch the next page by
`files_list_folder_continue(result.cursor)`.  The page budget bounds how
many continuation calls the interpreter will still make. -/
def processPagesWith (recur : Option String → St → St) (env : Env) (cfg : Cfg)
    (currentPath : Option String) : Nat → St → Page → St × Except Exn Unit
  | pageFuel, st, page =>
    match processEntriesWith recur env cfg currentPath st page.entries with
    | (st1, .error ex) => (st1, .error ex)
    | (st1, .ok _) =>
      if page.hasMore then
        match pageFuel with
        | 0 => (st1, .ok ())
        | pf + 1 =>
          let st2 := st1.emit (.listContinueCall page.cursor)
          match env.listContinue page.cursor with
          | .error ex => (st2, .error ex)
          | .ok page2 => processPagesWith recur env cfg currentPath pf st2 page2
      else (st1, .ok ())

/-- main.py 82-165: `download_dropbox_folder`.  The whole body sits in a
`try` whose `except Exception` prints `Error processing folder ...` and
returns, so the function itself never raises.  `fuel` bounds the
recursion depth and the number of continuation pages per directory;
Python has no such bound, so every claim is stated for a sufficiently
large fuel. -/
def download_dropbox_folder (env : Env) (cfg : Cfg) :
    Nat → Option String → St → St
  | 0, _, st => st
  | fuel + 1, currentPath, st =>
    let lp := listPathOf currentPath
    let st1 := st.emit (.listFolderCall lp)
    match env.listFolder lp with
    | .error _ => st1.emit (.printFolderError currentPath)
    | .ok page =>
      match processPagesWith (fun cp s => download_dropbox_folder env cfg fuel cp s)
          env cfg currentPath fuel st1 page with
      | (st2, .ok _) => st2
      | (st2, .error _) => st2.emit (.printFolderError currentPath)

/-! ## Derived notions used to state the claims -/

/-- The events one successfully downloaded file entry contributes to the
trace. -/
def successEntryEvs (rl : Option String) (cfg : Cfg) (cp : Option String) :
    Entry → List Ev
  | .file n i =>
    let fp := buildFullPath cp n
    let lp := localFilePath cfg.cwd cfg.localRoot fp cfg.dropboxRoot
    [.processEntry n fp lp, .makedirs (posixDirname lp)] ++
      (if truthy rl then [.directGet (directUrl i n (rl.getD ""))]
       else [.apiDownload lp i]) ++ [.printDownloaded fp]
  | .folder _ => []

/-- Concatenated success events of a list of entries. -/
def evsOfEntries (rl : Option String) (cfg : Cfg) (cp : Option String)
    (es : List Entry) : List Ev :=
  (es.map (successEntryEvs rl cfg cp)).flatten

/-- Is this event the `Processing entry` report? -/
def isProcessEv : Ev → Bool
  | .processEntry _ _ _ => true
  | _ => false

/-- The `Processing entry` event an entry produces. -/
def processEvOf (cfg : Cfg) (cp : Option String) (e : Entry) : Ev :=
  .processEntry (entryName e) (buildFullPath cp (entryName e))
    (localFilePath cfg.cwd cfg.localRoot (buildFullPath cp (entryName e)) cfg.dropboxRoot)

/-- Is this event a direct-HTTP download attempt? -/
def isDirectEv : Ev → Bool
  | .directGet _ => true
  | _ => false

/-- Does the trace contain a direct-HTTP download attempt? -/
def hasDirect (l : List Ev) : Bool :=
  l.any isDirectEv

/-- The configuration `main` uses: `dropbox_root = ""` (root-like). -/
def mainCfg : Cfg := { localRoot := "out", dropboxRoot := some "", cwd := "/w" }

/-- Stub for the C2 counterexample: one page with files `a` and `b`; the
direct download of `a` raises a rate-limit `ApiError` and the retry
raises a non-`ApiError` exception. -/
def c2Env : Env :=
  { rlkey := some "K"
    listFolder := fun p =>
      if p == "" then .ok ⟨[.file "a" "ida", .file "b" "idb"], false, 0⟩
      else .error .other
    listContinue := fun _ => .error .other
    direct := fun _ _ => .error .rateLimit
    api := fun _ _ _ => .error .other }

/-- Stub for the C3 witness: three pages chained by cursors 1 and 2,
with `hasMore` true, true, false and disjoint single-file entry sets. -/
def c3Env : Env :=
  { rlkey := some "K"
    listFolder := fun p =>
      if p == "" then .ok ⟨[.file "a" "ia"], true, 1⟩ else .error .other
    listContinue := fun c =>
      if c == 1 then .ok ⟨[.file "b" "ib"], true, 2⟩
      else if c == 2 then .ok ⟨[.file "c" "ic"], false, 3⟩
      else .error .other
    direct := fun _ _ => .ok ()
    api := fun _ _ _ => .ok () }

/-- Stub for the C4 witness: the first direct download raises a
rate-limit `ApiError`; the API-mediated download succeeds. -/
def c4Env : Env :=
  { rlkey := some "K"
    listFolder := fun _ => .error .other
    listContinue := fun _ => .error .other
    direct := fun k _ => if k == 0 then .error .rateLimit else .ok ()
    api := fun _ _ _ => .ok () }

/-- Stub for the C6 witness: a shared link without an `rlkey` query
parameter. -/
def c6Env : Env :=
  { rlkey := none
    listFolder := fun p =>
      if p == "" then .ok ⟨[.file "a" "ia", .folder "d"], false, 0⟩
      else if p == "/d" then .ok ⟨[.file "b" "ib"], false, 0⟩
      else .error .other
    listContinue := fun _ => .error .other
    direct := fun _ _ => .ok ()
    api := fun _ _ _ => .ok () }

/-- Stub for the C7 witness: under `/A`, file `f` and folders `B` and
`C`; listing `/A/B` raises, `/A/C` lists fine. -/
def c7Env : Env :=
  { rlkey := some "K"
    listFolder := fun p =>
      if p == "/A" then .ok ⟨[.file "f" "if", .folder "B", .folder "C"], false, 0⟩
      else if p == "/A/C" then .ok ⟨[.file "g" "ig"], false, 0⟩
      else .error .other
    listContinue := fun _ => .error .other
    direct := fun _ _ => .ok ()
    api := fun _ _ _ => .ok () }

/-- Stub for the C10 witness: no `rlkey`; the first API-mediated download
raises a rate-limit `ApiError`, the second succeeds. -/
def c10Env : Env :=
  { rlkey := none
    listFolder := fun _ => .error .other
    listContinue := fun _ => .error .other
    direct := fun _ _ => .error .other
    api := fun k _ _ => if k == 0 then .error .rateLimit else .ok () }

/-- Auth stub with no stored credentials: the console input carries
whitespace around the code, the exchange accepts exactly the stripped
code, and the client constructor succeeds. -/
def authEnvFresh : AuthEnv :=
  { stored := none
    authorizeUrl := "https://auth"
    inputLine := " CODE \n"
    finish := fun c => if c == "CODE" then .ok ⟨"AT", "RT"⟩ else .error .other
    ctorFails := fun _ => false }

/-- Auth stub with a pre-existing valid credentials file. -/
def authEnvStored : AuthEnv :=
  { stored := some ⟨"AT0", "RT0"⟩
    authorizeUrl := "https://auth"
    inputLine := ""
    finish := fun _ => .error .other
    ctorFails := fun _ => false }

/-! ## Theorems -/

/-- Helper for C1: stripping all leading slashes from a path with exactly
one leading separator strips exactly that separator. -/
theorem pyLstripSlash_single (q : String) (hq : q.data.head? ≠ some '/') :
    pyLstripSlash ("/" ++ q) = q := by
  obtain ⟨l⟩ := q
  have hdata : (("/" ++ String.mk l : String)).data = '/' :: l := rfl
  unfold pyLstripSlash
  rw [hdata, List.dropWhile_cons]
  simp only [beq_self_eq_true, if_true]
  cases l with
  | nil => rfl
  | cons c t =>
    have hc : (c == '/') = false := by
      simp only [List.head?_cons, ne_eq, Option.some.injEq] at hq
      simpa using hq
    rw [List.dropWhile_cons, hc]
    simp

/-- Claim C1: for a full remote path `"/" ++ q` (exactly one leading
separator: `q` does not start with another one), a root-like
`dropbox_root` (`None`, `""` or `"/"`) makes the computed local-relative
path equal to the full path with exactly that one leading separator
stripped; a non-root-like `dropbox_root` makes it the standard posix
relative-path difference between the full path and the share root. -/
theorem relPath_of_fullPath (cwd q : String) (root : Option String)
    (hq : q.data.head? ≠ some '/') :
    (rootLike root = true → computeRelPath cwd ("/" ++ q) root = q) ∧
    (rootLike root = false →
      computeRelPath cwd ("/" ++ q) root = posixRelpath cwd ("/" ++ q) (root.getD "")) := by
  constructor
  · intro h
    rw [computeRelPath, h]
    simp only [if_true]
    exact pyLstripSlash_single q hq
  · intro h
    rw [computeRelPath, h]
    simp

/-- Witness for C1, at the share root and at share root `/a`. -/
theorem relPath_of_fullPath_witness :
    computeRelPath "/w" ("/" ++ "data/a.csv") (some "") = "data/a.csv" ∧
    computeRelPath "/w" ("/" ++ "a/b") (some "/a") = posixRelpath "/w" ("/" ++ "a/b") "/a" :=
  ⟨(relPath_of_fullPath "/w" "data/a.csv" (some "") (by decide)).1 (by decide),
   (relPath_of_fullPath "/w" "a/b" (some "/a") (by decide)).2 (by decide)⟩

/-- Claim C5: a root-like current directory (`None`, `""` or `"/"`) makes
the constructed child remote path `"/" + name`; otherwise it is the
current directory with all trailing slashes stripped, then
`"/" + name`. -/
theorem fullPath_construction (cp : Option String) (name : String) :
    (rootLike cp = true → buildFullPath cp name = "/" ++ name) ∧
    (∀ p, cp = some p → rootLike cp = false →
      buildFullPath cp name = pyRstripSlash p ++ "/" ++ name) := by
  constructor
  · intro h
    rw [buildFullPath, h]
    simp
  · rintro p rfl h
    rw [buildFullPath, h]
    simp

/-- Witness for C5, at the root and below `/a//`. -/
theorem fullPath_construction_witness :
    buildFullPath none "x" = "/" ++ "x" ∧
    buildFullPath (some "/a//") "x" = pyRstripSlash "/a//" ++ "/" ++ "x" :=
  ⟨(fullPath_construction none "x").1 (by decide),
   (fullPath_construction (some "/a//") "x").2 "/a//" rfl (by decide)⟩

/-- Counterexample for C9: a credentials file that exists and contains
the JSON text `null` parses to JSON null — Python `None` — so
`load_credentials` returns `None` for an existing file, refuting "returns
None exactly when the file does not exist". -/
theorem load_credentials_null_counterexample :
    load_credentials (.parsed .null) = .ok .null ∧
    ReadOutcome.parsed .null ≠ ReadOutcome.fileNotFound :=
  ⟨rfl, fun h => nomatch h⟩

/-- Claim C9 (amended): `load_credentials` returns `None` without raising
when the file does not exist; it also returns `None` when the file
exists but parses to JSON null (the only other way `None` arises); any
other read or parse failure propagates to the caller. -/
theorem load_credentials_spec (r : ReadOutcome) :
    (r = .fileNotFound → load_credentials r = .ok .null) ∧
    (load_credentials r = .ok .null ↔ r = .fileNotFound ∨ r = .parsed .null) ∧
    (∀ e, load_credentials r = .error e ↔ r = .readOrParseError e) := by
  refine ⟨?_, ?_, ?_⟩
  · rintro rfl; rfl
  · cases r <;> simp [load_credentials]
  · intro e; cases r <;> simp [load_credentials]

/-- Witness for C9's amended claim: the missing-file and failing-read
cases. -/
theorem load_credentials_spec_witness :
    load_credentials .fileNotFound = .ok .null ∧
    load_credentials (.readOrParseError .other) = .error .other :=
  ⟨(load_credentials_spec .fileNotFound).1 rfl,
   ((load_credentials_spec (.readOrParseError .other)).2.2 .other).mpr rfl⟩

/-- Claim C8: with no credentials file, `get_dropbox_client` shows the
authorization URL, prompts for a code, exchanges the stripped code,
persists the resulting access/refresh token pair, and returns a client
built from the refresh token (when the exchange and the constructor
succeed); with a pre-existing valid credentials file it returns such a
client with an empty event trace — in particular without prompting. -/
theorem get_dropbox_client_spec (env : AuthEnv) :
    (env.stored = none → ∀ r, env.finish (pyStrip env.inputLine) = .ok r →
      env.ctorFails r.refresh_token = false →
      get_dropbox_client env =
        (some ⟨r.refresh_token, APP_KEY, APP_SECRET⟩,
         [.printAuthInstructions env.authorizeUrl, .promptCode,
          .finishCall (pyStrip env.inputLine),
          .saveCredentials ⟨r.access_token, r.refresh_token⟩])) ∧
    (∀ c, env.stored = some c → env.ctorFails c.refresh_token = false →
      get_dropbox_client env = (some ⟨c.refresh_token, APP_KEY, APP_SECRET⟩, [])) := by
  constructor
  · intro h r hr hc
    rw [get_dropbox_client, h]
    simp only [hr, buildClient, hc]
    simp
  · intro c h hc
    rw [get_dropbox_client, h]
    simp [buildClient, hc]

/-- Witness for C8: the fresh-bootstrap stub and the stored-credentials
stub. -/
theorem get_dropbox_client_spec_witness :
    get_dropbox_client authEnvFresh =
      (some ⟨"RT", APP_KEY, APP_SECRET⟩,
       [.printAuthInstructions "https://auth", .promptCode, .finishCall "CODE",
        .saveCredentials ⟨"AT", "RT"⟩]) ∧
    get_dropbox_client authEnvStored = (some ⟨"RT0", APP_KEY, APP_SECRET⟩, []) :=
  ⟨(get_dropbox_client_spec authEnvFresh).1 rfl ⟨"AT", "RT"⟩ rfl rfl,
   (get_dropbox_client_spec authEnvStored).2 ⟨"AT0", "RT0"⟩ rfl rfl⟩

/-- Claim C4: when the shared link carries a (truthy) `rlkey` and the
direct download raises a rate-limit `ApiError`, the program reports the
error, sleeps 2 seconds, performs exactly one API-mediated download as
the retry, and reports the retry successful when it succeeds. -/
theorem rateLimit_retry_after_direct (env : Env) (st : St) (n i fp lp rk : String)
    (hrl : env.rlkey = some rk) (hrk : rk ≠ "")
    (hd : env.direct st.dCount (directUrl i n rk) = .error .rateLimit)
    (ha : env.api st.aCount lp i = .ok ()) :
    processFile env st n i fp lp =
      ({ dCount := st.dCount + 1, aCount := st.aCount + 1,
         evs := st.evs ++ [.makedirs (posixDirname lp), .directGet (directUrl i n rk),
           .printError fp, .sleep 2, .apiDownload lp i, .printRetrySuccess fp] },
       .ok ()) := by
  have hne : rk.isEmpty = false := by
    cases he : rk.isEmpty
    · rfl
    · exact absurd ((String.isEmpty_iff rk).mp he) hrk
  rw [processFile]
  simp only [hrl, truthy, hne, Bool.not_false, if_true, Option.getD_some,
    callDirect, St.emit, hd, handleDownloadError, callApi, ha,
    Exn.isApiError, Exn.isRateLimit, Bool.and_self, if_true]
  simp [St.emit, List.append_assoc]

/-- Witness for C4 on the `c4Env` stub. -/
theorem rateLimit_retry_after_direct_witness :
    processFile c4Env ⟨0, 0, []⟩ "a" "ida" "/a" "out/a" =
      ({ dCount := 1, aCount := 1,
         evs := [.makedirs "out", .directGet (directUrl "ida" "a" "K"),
           .printError "/a", .sleep 2, .apiDownload "out/a" "ida",
           .printRetrySuccess "/a"] },
       .ok ()) := by
  have h := rateLimit_retry_after_direct c4Env ⟨0, 0, []⟩ "a" "ida" "/a" "out/a" "K"
    rfl (by decide) rfl rfl
  simpa using h

/-- Claim C10: the retry policy also covers the API-mediated path — with
no `rlkey` in the shared link, a first API-mediated download that raises
a rate-limit `ApiError` is followed by the 2-second sleep and exactly one
further API-mediated download, reported successful when it succeeds. -/
theorem rateLimit_retry_after_api (env : Env) (st : St) (n i fp lp : String)
    (hrl : env.rlkey = none)
    (ha1 : env.api st.aCount lp i = .error .rateLimit)
    (ha2 : env.api (st.aCount + 1) lp i = .ok ()) :
    processFile env st n i fp lp =
      ({ dCount := st.dCount, aCount := st.aCount + 2,
         evs := st.evs ++ [.makedirs (posixDirname lp), .apiDownload lp i,
           .printError fp, .sleep 2, .apiDownload lp i, .printRetrySuccess fp] },
       .ok ()) := by
  rw [processFile]
  simp only [hrl, truthy, if_false, Bool.false_eq_true,
    callApi, St.emit, ha1, handleDownloadError,
    Exn.isApiError, Exn.isRateLimit, Bool.and_self, if_true, ha2]
  simp [St.emit, List.append_assoc]

/-- Witness for C10 on the `c10Env` stub. -/
theorem rateLimit_retry_after_api_witness :
    processFile c10Env ⟨0, 0, []⟩ "a" "ida" "/a" "out/a" =
      ({ dCount := 0, aCount := 2,
         evs := [.makedirs "out", .apiDownload "out/a" "ida",
           .printError "/a", .sleep 2, .apiDownload "out/a" "ida",
           .printRetrySuccess "/a"] },
       .ok ()) := by
  have h := rateLimit_retry_after_api c10Env ⟨0, 0, []⟩ "a" "ida" "/a" "out/a"
    rfl rfl rfl
  simpa using h

/-- Counterexample for C2: with files `a` and `b` in one listing, `a`'s
direct download raises a rate-limit `ApiError` and the retry raises a
non-`ApiError` exception.  The retry's `except` clause catches only
`ApiError`, so the exception escapes to the folder-level handler: sibling
`b` is never processed, refuting "no remaining sibling entry is
skipped". -/
theorem file_failure_skips_sibling_counterexample :
    (download_dropbox_folder c2Env mainCfg 5 none ⟨0, 0, []⟩).evs =
      [.listFolderCall "", .processEntry "a" "/a" "out/a", .makedirs "out",
       .directGet (directUrl "ida" "a" "K"), .printError "/a", .sleep 2,
       .apiDownload "out/a" "ida", .printFolderError none] ∧
    Ev.processEntry "b" "/b" "out/b" ∉
      (download_dropbox_folder c2Env mainCfg 5 none ⟨0, 0, []⟩).evs := by
  constructor
  · rfl
  · decide

/-- Claim C2 (amended): for every file entry, a download attempt failing
with a non-rate-limit exception, or a rate-limit retry failing with an
`ApiError`, is reported, the file is abandoned, and processing continues
with the next entry of the same listing; a rate-limit retry failing with
a non-`ApiError` exception instead propagates to the folder-level handler
and the remaining entries of the listing are skipped. -/
theorem file_failure_handling (env : Env) (st : St) (fp lp i : String) (e : Exn)
    (recur : Option String → St → St) (cfg : Cfg) (cp : Option String)
    (x : Entry) (rest : List Entry) :
    (e.isRateLimit = false →
      handleDownloadError env st fp lp i e = (st.emit (.printError fp), .ok ())) ∧
    (e.isRateLimit = true → ∀ e2, e2.isApiError = true →
      env.api st.aCount lp i = .error e2 →
      handleDownloadError env st fp lp i e =
        ({ dCount := st.dCount, aCount := st.aCount + 1,
           evs := st.evs ++ [.printError fp, .sleep 2, .apiDownload lp i,
             .printRetryFailed fp] },
         .ok ())) ∧
    (e.isRateLimit = true → ∀ e2, e2.isApiError = false →
      env.api st.aCount lp i = .error e2 →
      handleDownloadError env st fp lp i e =
        ({ dCount := st.dCount, aCount := st.aCount + 1,
           evs := st.evs ++ [.printError fp, .sleep 2, .apiDownload lp i] },
         .error e2)) ∧
    (∀ st1, processEntryWith recur env cfg cp st x = (st1, .ok ()) →
      processEntriesWith recur env cfg cp st (x :: rest) =
        processEntriesWith recur env cfg cp st1 rest) ∧
    (∀ st1 ex, processEntryWith recur env cfg cp st x = (st1, .error ex) →
      processEntriesWith recur env cfg cp st (x :: rest) = (st1, .error ex)) := by
  refine ⟨?_, ?_, ?_, ?_, ?_⟩
  · intro h
    rw [handleDownloadError]
    cases e <;> simp_all [Exn.isRateLimit, Exn.isApiError]
  · intro h e2 h2 ha
    cases e <;> simp_all [handleDownloadError, Exn.isRateLimit, Exn.isApiError,
      callApi, St.emit, List.append_assoc]
  · intro h e2 h2 ha
    cases e <;> simp_all [handleDownloadError, Exn.isRateLimit, Exn.isApiError,
      callApi, St.emit, List.append_assoc]
  · intro st1 h
    rw [processEntriesWith, h]
  · intro st1 ex h
    rw [processEntriesWith, h]

/-- Witness for C2's amended claim: the non-rate-limit failure case and
the retry-fails-with-`ApiError` case on concrete stubs, followed by the
continuation of the listing. -/
theorem file_failure_handling_witness :
    handleDownloadError c2Env ⟨0, 0, []⟩ "/a" "out/a" "ida" .other =
      ((St.mk 0 0 []).emit (.printError "/a"), .ok ()) ∧
    handleDownloadError c2Env ⟨0, 0, []⟩ "/a" "out/a" "ida" .rateLimit =
      ({ dCount := 0, aCount := 1,
         evs := [.printError "/a", .sleep 2, .apiDownload "out/a" "ida"] },
       .error .other) ∧
    processEntriesWith (fun _ s => s) c2Env mainCfg none ⟨0, 0, []⟩
        [Entry.folder "d", Entry.file "b" "idb"] =
      processEntriesWith (fun _ s => s) c2Env mainCfg none
        ((St.mk 0 0 []).emit (.processEntry "d" "/d" "out/d")) [Entry.file "b" "idb"] := by
  refine ⟨?_, ?_, ?_⟩
  · exact (file_failure_handling c2Env ⟨0, 0, []⟩ "/a" "out/a" "ida" .other
      (fun _ s => s) mainCfg none (.folder "d") []).1 rfl
  · exact (file_failure_handling c2Env ⟨0, 0, []⟩ "/a" "out/a" "ida" .rateLimit
      (fun _ s => s) mainCfg none (.folder "d") []).2.2.1 rfl .other rfl rfl
  · exact (file_failure_handling c2Env ⟨0, 0, []⟩ "/a" "out/a" "ida" .other
      (fun _ s => s) mainCfg none (.folder "d") [Entry.file "b" "idb"]).2.2.2.1
      _ rfl

/-- Claim C7: a folder entry whose listing call raises is reported at the
folder level and only that subtree is skipped — the recursive call
returns normally after the report, and the remaining entries of the
parent listing (sibling files and folders) are still processed. -/
theorem folder_listing_failure_isolated (env : Env) (cfg : Cfg) (fuel : Nat)
    (cp : Option String) (st : St) (name : String) (rest : List Entry) (ex : Exn)
    (hl : env.listFolder (buildFullPath cp name) = .error ex) :
    (processEntryWith (fun c s => download_dropbox_folder env cfg (fuel + 1) c s)
        env cfg cp st (.folder name) =
      (((st.emit (.processEntry name (buildFullPath cp name)
            (localFilePath cfg.cwd cfg.localRoot (buildFullPath cp name)
              cfg.dropboxRoot))).emit
          (.listFolderCall (buildFullPath cp name))).emit
          (.printFolderError (some (buildFullPath cp name))), .ok ())) ∧
    (∀ st1, processEntryWith (fun c s => download_dropbox_folder env cfg (fuel + 1) c s)
        env cfg cp st (.folder name) = (st1, .ok ()) →
      processEntriesWith (fun c s => download_dropbox_folder env cfg (fuel + 1) c s)
          env cfg cp st (.folder name :: rest) =
        processEntriesWith (fun c s => download_dropbox_folder env cfg (fuel + 1) c s)
          env cfg cp st1 rest) := by
  constructor
  · rw [processEntryWith]
    simp only [entryName]
    rw [download_dropbox_folder]
    simp only [listPathOf, hl]
  · intro st1 h
    rw [processEntriesWith, h]

/-- Witness for C7 on the `c7Env` stub: listing `/A/B` raises, the
failure is reported, and the siblings (`C` here) are still processed. -/
theorem folder_listing_failure_isolated_witness :
    (processEntryWith (fun c s => download_dropbox_folder c7Env mainCfg 3 c s)
        c7Env mainCfg (some "/A") ⟨1, 0, []⟩ (.folder "B") =
      ((((St.mk 1 0 []).emit (.processEntry "B" "/A/B" "out/A/B")).emit
          (.listFolderCall "/A/B")).emit
          (.printFolderError (some "/A/B")), .ok ())) ∧
    processEntriesWith (fun c s => download_dropbox_folder c7Env mainCfg 3 c s)
        c7Env mainCfg (some "/A") ⟨1, 0, []⟩ [Entry.folder "B", Entry.folder "C"] =
      processEntriesWith (fun c s => download_dropbox_folder c7Env mainCfg 3 c s)
        c7Env mainCfg (some "/A")
        ((((St.mk 1 0 []).emit (.processEntry "B" "/A/B" "out/A/B")).emit
          (.listFolderCall "/A/B")).emit
          (.printFolderError (some "/A/B"))) [Entry.folder "C"] := by
  have h := folder_listing_failure_isolated c7Env mainCfg 2 (some "/A") ⟨1, 0, []⟩
    "B" [Entry.folder "C"] .other rfl
  have h1 := h.1
  have h1' : processEntryWith (fun c s => download_dropbox_folder c7Env mainCfg 3 c s)
      c7Env mainCfg (some "/A") ⟨1, 0, []⟩ (.folder "B") =
      ((((St.mk 1 0 []).emit (.processEntry "B" "/A/B" "out/A/B")).emit
          (.listFolderCall "/A/B")).emit
          (.printFolderError (some "/A/B")), .ok ()) := by
    have := h1
    simp only [show buildFullPath (some "/A") "B" = "/A/B" from rfl,
      show localFilePath mainCfg.cwd mainCfg.localRoot "/A/B" mainCfg.dropboxRoot
        = "out/A/B" from rfl] at this
    exact this
  exact ⟨h1', h.2 _ h1'⟩

/-- Appending traces: a direct attempt is in the concatenation iff it is
in one of the parts. -/
theorem hasDirect_append (l1 l2 : List Ev) :
    hasDirect (l1 ++ l2) = (hasDirect l1 || hasDirect l2) :=
  List.any_append

/-- Appending non-direct events to a direct-free trace keeps it
direct-free. -/
theorem hasDirect_extend (l tail : List Ev) (h : hasDirect l = false)
    (ht : hasDirect tail = false) : hasDirect (l ++ tail) = false := by
  rw [hasDirect_append, h, ht]
  rfl

/-- The error handler never issues a direct-HTTP attempt. -/
theorem handleDownloadError_noDirect (env : Env) (st : St) (fp lp i : String)
    (e : Exn) (h : hasDirect st.evs = false) :
    hasDirect (handleDownloadError env st fp lp i e).1.evs = false := by
  cases e with
  | other => exact hasDirect_extend st.evs [Ev.printError fp] h rfl
  | apiOther => exact hasDirect_extend st.evs [Ev.printError fp] h rfl
  | rateLimit =>
    cases hr : env.api st.aCount lp i with
    | ok u =>
      simp only [handleDownloadError, callApi, St.emit, Exn.isApiError,
        Exn.isRateLimit, Bool.and_self, if_true, hr, List.append_assoc]
      refine hasDirect_extend _ _ h ?_
      rfl
    | error e2 =>
      cases e2 <;>
        · simp only [handleDownloadError, callApi, St.emit, Exn.isApiError,
            Exn.isRateLimit, Bool.and_self, if_true, hr, Bool.false_eq_true,
            if_false, List.append_assoc]
          refine hasDirect_extend _ _ h ?_
          rfl

/-- With no `rlkey`, processing a file never issues a direct-HTTP
attempt. -/
theorem processFile_noDirect (env : Env) (hrl : env.rlkey = none) (st : St)
    (n i fp lp : String) (h : hasDirect st.evs = false) :
    hasDirect (processFile env st n i fp lp).1.evs = false := by
  cases hr : env.api st.aCount lp i with
  | ok u =>
    simp only [processFile, hrl, truthy, Bool.false_eq_true, if_false, callApi,
      St.emit, hr, List.append_assoc]
    refine hasDirect_extend _ _ h ?_
    rfl
  | error e =>
    simp only [processFile, hrl, truthy, Bool.false_eq_true, if_false, callApi,
      St.emit, hr, List.append_assoc]
    refine handleDownloadError_noDirect env _ fp lp i e ?_
    refine hasDirect_extend _ _ h ?_
    rfl

/-- With no `rlkey`, processing one entry never issues a direct-HTTP
attempt, provided the recursive folder call has the same property. -/
theorem processEntryWith_noDirect (recur : Option String → St → St) (env : Env)
    (hrl : env.rlkey = none) (cfg : Cfg) (cp : Option String)
    (hrec : ∀ c s, hasDirect s.evs = false → hasDirect (recur c s).evs = false)
    (st : St) (e : Entry) (h : hasDirect st.evs = false) :
    hasDirect (processEntryWith recur env cfg cp st e).1.evs = false := by
  cases e with
  | file n i =>
    exact processFile_noDirect env hrl _ n i _ _ (hasDirect_extend _ _ h rfl)
  | folder n =>
    exact hrec _ _ (hasDirect_extend _ _ h rfl)

/-- With no `rlkey`, the entry loop never issues a direct-HTTP attempt. -/
theorem processEntriesWith_noDirect (recur : Option String → St → St) (env : Env)
    (hrl : env.rlkey = none) (cfg : Cfg) (cp : Option String)
    (hrec : ∀ c s, hasDirect s.evs = false → hasDirect (recur c s).evs = false)
    (es : List Entry) :
    ∀ st : St, hasDirect st.evs = false →
      hasDirect (processEntriesWith recur env cfg cp st es).1.evs = false := by
  induction es with
  | nil => intro st h; exact h
  | cons e rest ih =>
    intro st h
    have h1 := processEntryWith_noDirect recur env hrl cfg cp hrec st e h
    rw [processEntriesWith]
    rcases hpe : processEntryWith recur env cfg cp st e with ⟨st1, r⟩
    rw [hpe] at h1
    cases r with
    | ok u => exact ih st1 h1
    | error ex => exact h1

/-- With no `rlkey`, the pagination loop never issues a direct-HTTP
attempt. -/
theorem processPagesWith_noDirect (recur : Option String → St → St) (env : Env)
    (hrl : env.rlkey = none) (cfg : Cfg) (cp : Option String)
    (hrec : ∀ c s, hasDirect s.evs = false → hasDirect (recur c s).evs = false) :
    ∀ (pf : Nat) (st : St) (page : Page), hasDirect st.evs = false →
      hasDirect (processPagesWith recur env cfg cp pf st page).1.evs = false := by
  intro pf
  induction pf with
  | zero =>
    intro st page h
    have h1 := processEntriesWith_noDirect recur env hrl cfg cp hrec page.entries st h
    rw [processPagesWith]
    rcases hpe : processEntriesWith recur env cfg cp st page.entries with ⟨st1, r⟩
    rw [hpe] at h1
    cases r with
    | error ex => exact h1
    | ok u => cases page.hasMore <;> exact h1
  | succ pf ih =>
    intro st page h
    have h1 := processEntriesWith_noDirect recur env hrl cfg cp hrec page.entries st h
    rw [processPagesWith]
    rcases hpe : processEntriesWith recur env cfg cp st page.entries with ⟨st1, r⟩
    rw [hpe] at h1
    cases r with
    | error ex => exact h1
    | ok u =>
      cases page.hasMore
      · exact h1
      · cases hc : env.listContinue page.cursor with
        | error ex => exact hasDirect_extend _ _ h1 rfl
        | ok page2 => exact ih _ page2 (hasDirect_extend _ _ h1 rfl)

/-- With no `rlkey`, the whole traversal never issues a direct-HTTP
attempt. -/
theorem download_dropbox_folder_noDirect (env : Env) (hrl : env.rlkey = none)
    (cfg : Cfg) :
    ∀ (fuel : Nat) (cp : Option String) (st : St), hasDirect st.evs = false →
      hasDirect (download_dropbox_folder env cfg fuel cp st).evs = false := by
  intro fuel
  induction fuel with
  | zero => intro cp st h; exact h
  | succ fuel ih =>
    intro cp st h
    cases hl : env.listFolder (listPathOf cp) with
    | error e =>
      simp only [download_dropbox_folder, hl]
      exact hasDirect_extend _ _ (hasDirect_extend _ _ h rfl) rfl
    | ok page =>
      simp only [download_dropbox_folder, hl]
      have hp := processPagesWith_noDirect
        (fun c s => download_dropbox_folder env cfg fuel c s) env hrl cfg cp
        (fun c s hs => ih c s hs) fuel (st.emit (.listFolderCall (listPathOf cp)))
        page (hasDirect_extend _ _ h rfl)
      rcases hpp : processPagesWith
          (fun c s => download_dropbox_folder env cfg fuel c s) env cfg cp fuel
          (st.emit (.listFolderCall (listPathOf cp))) page with ⟨st2, r⟩
      rw [hpp] at hp
      cases r with
      | ok u => exact hp
      | error ex => exact hasDirect_extend _ _ hp rfl

/-- Claim C6: when the shared link's query string has no `rlkey`
parameter, the traversal never attempts the direct-HTTP download URL
template, and every file download is routed through the API-mediated
path (`files_download_to_file` by entry id, right after the directory
creation). -/
theorem no_rlkey_routes_api (env : Env) (cfg : Cfg) (hrl : env.rlkey = none)
    (fuel : Nat) (cp : Option String) (st : St) (h : hasDirect st.evs = false) :
    hasDirect (download_dropbox_folder env cfg fuel cp st).evs = false ∧
    (∀ n i fp lp, ∃ tail, (processFile env st n i fp lp).1.evs =
      st.evs ++ [.makedirs (posixDirname lp), .apiDownload lp i] ++ tail) := by
  constructor
  · exact download_dropbox_folder_noDirect env hrl cfg fuel cp st h
  · intro n i fp lp
    cases hr : env.api st.aCount lp i with
    | ok u =>
      refine ⟨[.printDownloaded fp], ?_⟩
      simp only [processFile, hrl, truthy, Bool.false_eq_true, if_false, callApi,
        St.emit, hr, List.append_assoc, List.cons_append, List.nil_append]
    | error e =>
      cases e with
      | rateLimit =>
        cases hr2 : env.api (st.aCount + 1) lp i with
        | ok u =>
          refine ⟨[.printError fp, .sleep 2, .apiDownload lp i,
            .printRetrySuccess fp], ?_⟩
          simp only [processFile, hrl, truthy, Bool.false_eq_true, if_false,
            callApi, St.emit, hr, handleDownloadError, Exn.isApiError,
            Exn.isRateLimit, Bool.and_self, if_true, hr2, List.append_assoc, List.cons_append, List.nil_append]
        | error e2 =>
          cases e2 with
          | rateLimit =>
            refine ⟨[.printError fp, .sleep 2, .apiDownload lp i, .printRetryFailed fp], ?_⟩
            simp only [processFile, hrl, truthy, Bool.false_eq_true, if_false,
              callApi, St.emit, hr, handleDownloadError, Exn.isApiError,
              Exn.isRateLimit, Bool.and_self, if_true, hr2,
              List.append_assoc, List.cons_append, List.nil_append]
          | apiOther =>
            refine ⟨[.printError fp, .sleep 2, .apiDownload lp i, .printRetryFailed fp], ?_⟩
            simp only [processFile, hrl, truthy, Bool.false_eq_true, if_false,
              callApi, St.emit, hr, handleDownloadError, Exn.isApiError,
              Exn.isRateLimit, Bool.and_self, if_true, hr2,
              List.append_assoc, List.cons_append, List.nil_append]
          | other =>
            refine ⟨[.printError fp, .sleep 2, .apiDownload lp i], ?_⟩
            simp only [processFile, hrl, truthy, Bool.false_eq_true, if_false,
              callApi, St.emit, hr, handleDownloadError, Exn.isApiError,
              Exn.isRateLimit, Bool.and_self, if_true, Bool.false_eq_true,
              if_false, hr2, List.append_assoc, List.cons_append, List.nil_append]
      | apiOther =>
        refine ⟨[.printError fp], ?_⟩
        simp only [processFile, hrl, truthy, Bool.false_eq_true, if_false,
          callApi, St.emit, hr, handleDownloadError, Exn.isApiError,
          Exn.isRateLimit, Bool.false_and, Bool.and_false, if_false,
          Bool.false_eq_true, List.append_assoc, List.cons_append, List.nil_append]
      | other =>
        refine ⟨[.printError fp], ?_⟩
        simp only [processFile, hrl, truthy, Bool.false_eq_true, if_false,
          callApi, St.emit, hr, handleDownloadError, Exn.isApiError,
          Exn.isRateLimit, Bool.false_and, Bool.and_false, if_false,
          Bool.false_eq_true, List.append_assoc, List.cons_append, List.nil_append]

/-- Witness for C6 on the `c6Env` stub (a nested tree, all listed and
downloaded with no `rlkey`). -/
theorem no_rlkey_routes_api_witness :
    hasDirect (download_dropbox_folder c6Env mainCfg 5 none ⟨0, 0, []⟩).evs = false ∧
    (∀ n i fp lp, ∃ tail, (processFile c6Env ⟨0, 0, []⟩ n i fp lp).1.evs =
      (St.mk 0 0 []).evs ++ [.makedirs (posixDirname lp), .apiDownload lp i] ++ tail) :=
  no_rlkey_routes_api c6Env mainCfg rfl 5 none ⟨0, 0, []⟩ rfl

/-- With every download succeeding, a listing of file entries is
processed front to back, appending exactly the success events of each
entry in order. -/
theorem processEntriesWith_success (recur : Option String → St → St) (env : Env)
    (cfg : Cfg) (cp : Option String)
    (hd : ∀ k u, env.direct k u = .ok ()) (ha : ∀ k l i, env.api k l i = .ok ())
    (es : List Entry) :
    ∀ st : St, (∀ e ∈ es, ∃ n i, e = Entry.file n i) →
      ∃ d a, processEntriesWith recur env cfg cp st es =
        ({ dCount := d, aCount := a,
           evs := st.evs ++ evsOfEntries env.rlkey cfg cp es }, .ok ()) := by
  induction es with
  | nil =>
    intro st hf
    exact ⟨st.dCount, st.aCount, by simp [processEntriesWith, evsOfEntries]⟩
  | cons e rest ih =>
    intro st hf
    obtain ⟨n, i, rfl⟩ := hf e (List.mem_cons_self _ _)
    have hstep : ∃ d a, processEntryWith recur env cfg cp st (Entry.file n i) =
        ({ dCount := d, aCount := a,
           evs := st.evs ++ successEntryEvs env.rlkey cfg cp (Entry.file n i) },
         .ok ()) := by
      cases htr : truthy env.rlkey
      · refine ⟨st.dCount, st.aCount + 1, ?_⟩
        simp only [processEntryWith, entryName, processFile, htr, Bool.false_eq_true,
          if_false, callApi, St.emit, ha, successEntryEvs,
          List.append_assoc, List.cons_append, List.nil_append]
      · refine ⟨st.dCount + 1, st.aCount, ?_⟩
        simp only [processEntryWith, entryName, processFile, htr, if_true, callDirect,
          St.emit, hd, successEntryEvs, List.append_assoc, List.cons_append,
          List.nil_append]
    obtain ⟨d1, a1, h1⟩ := hstep
    obtain ⟨d2, a2, h2⟩ :=
      ih ⟨d1, a1, st.evs ++ successEntryEvs env.rlkey cfg cp (Entry.file n i)⟩
        (fun x hx => hf x (List.mem_cons_of_mem _ hx))
    refine ⟨d2, a2, ?_⟩
    rw [processEntriesWith]
    simp only [h1]
    rw [h2]
    simp [evsOfEntries, List.append_assoc]

/-- Filtering the success events of file entries down to the
`Processing entry` reports recovers exactly one report per entry, in
order. -/
theorem filter_evsOfEntries (rl : Option String) (cfg : Cfg) (cp : Option String) :
    ∀ es : List Entry, (∀ e ∈ es, ∃ n i, e = Entry.file n i) →
      (evsOfEntries rl cfg cp es).filter isProcessEv = es.map (processEvOf cfg cp) := by
  intro es
  induction es with
  | nil => intro _; rfl
  | cons e rest ih =>
    intro hf
    obtain ⟨n, i, rfl⟩ := hf e (List.mem_cons_self _ _)
    have hrest := ih (fun x hx => hf x (List.mem_cons_of_mem _ hx))
    have hsplit : evsOfEntries rl cfg cp (Entry.file n i :: rest) =
        successEntryEvs rl cfg cp (Entry.file n i) ++ evsOfEntries rl cfg cp rest := by
      simp [evsOfEntries]
    rw [hsplit, List.filter_append, hrest, List.map_cons]
    cases htr : truthy rl <;>
      simp [successEntryEvs, htr, isProcessEv, processEvOf, entryName]

/-- Claim C3: a directory listing that paginates into three pages
(`hasMore` true, true, false, chained by cursor continuations) is
processed page by page: the trace records the initial listing call, the
events of page 1's entries, the continuation call with page 1's cursor,
the events of page 2, the continuation call with page 2's cursor and the
events of page 3, before the function returns; consequently every entry
of every page is reported processed exactly once, in page order. -/
theorem pagination_visits_all_pages (env : Env) (cfg : Cfg) (fuel : Nat)
    (cp : Option String) (st : St) (p1 p2 p3 : Page)
    (h1 : env.listFolder (listPathOf cp) = .ok p1) (hm1 : p1.hasMore = true)
    (h2 : env.listContinue p1.cursor = .ok p2) (hm2 : p2.hasMore = true)
    (h3 : env.listContinue p2.cursor = .ok p3) (hm3 : p3.hasMore = false)
    (hf1 : ∀ e ∈ p1.entries, ∃ n i, e = Entry.file n i)
    (hf2 : ∀ e ∈ p2.entries, ∃ n i, e = Entry.file n i)
    (hf3 : ∀ e ∈ p3.entries, ∃ n i, e = Entry.file n i)
    (hd : ∀ k u, env.direct k u = .ok ()) (ha : ∀ k l i, env.api k l i = .ok ()) :
    (download_dropbox_folder env cfg (fuel + 3) cp st).evs =
      st.evs ++ [.listFolderCall (listPathOf cp)]
        ++ evsOfEntries env.rlkey cfg cp p1.entries
        ++ [.listContinueCall p1.cursor]
        ++ evsOfEntries env.rlkey cfg cp p2.entries
        ++ [.listContinueCall p2.cursor]
        ++ evsOfEntries env.rlkey cfg cp p3.entries ∧
    ((download_dropbox_folder env cfg (fuel + 3) cp st).evs.filter isProcessEv) =
      st.evs.filter isProcessEv ++
        (p1.entries ++ p2.entries ++ p3.entries).map (processEvOf cfg cp) := by
  have step3 : ∀ s : St, ∃ dd aa,
      processPagesWith (fun c s' => download_dropbox_folder env cfg (fuel + 2) c s')
        env cfg cp fuel s p3 =
      ({ dCount := dd, aCount := aa,
         evs := s.evs ++ evsOfEntries env.rlkey cfg cp p3.entries }, .ok ()) := by
    intro s
    obtain ⟨d, a, he⟩ := processEntriesWith_success
      (fun c s' => download_dropbox_folder env cfg (fuel + 2) c s') env cfg cp hd ha
      p3.entries s hf3
    refine ⟨d, a, ?_⟩
    rw [processPagesWith]
    simp only [he, hm3, Bool.false_eq_true, if_false]
  have step2 : ∀ s : St, ∃ dd aa,
      processPagesWith (fun c s' => download_dropbox_folder env cfg (fuel + 2) c s')
        env cfg cp (fuel + 1) s p2 =
      ({ dCount := dd, aCount := aa,
         evs := s.evs ++ evsOfEntries env.rlkey cfg cp p2.entries
           ++ [.listContinueCall p2.cursor]
           ++ evsOfEntries env.rlkey cfg cp p3.entries }, .ok ()) := by
    intro s
    obtain ⟨d, a, he⟩ := processEntriesWith_success
      (fun c s' => download_dropbox_folder env cfg (fuel + 2) c s') env cfg cp hd ha
      p2.entries s hf2
    obtain ⟨dd, aa, h3s⟩ := step3
      ((⟨d, a, s.evs ++ evsOfEntries env.rlkey cfg cp p2.entries⟩ : St).emit
        (.listContinueCall p2.cursor))
    refine ⟨dd, aa, ?_⟩
    rw [processPagesWith]
    simp only [he, hm2, if_true, h3]
    rw [h3s]
    simp [St.emit, List.append_assoc]
  have step1 : ∀ s : St, ∃ dd aa,
      processPagesWith (fun c s' => download_dropbox_folder env cfg (fuel + 2) c s')
        env cfg cp (fuel + 2) s p1 =
      ({ dCount := dd, aCount := aa,
         evs := s.evs ++ evsOfEntries env.rlkey cfg cp p1.entries
           ++ [.listContinueCall p1.cursor]
           ++ evsOfEntries env.rlkey cfg cp p2.entries
           ++ [.listContinueCall p2.cursor]
           ++ evsOfEntries env.rlkey cfg cp p3.entries }, .ok ()) := by
    intro s
    obtain ⟨d, a, he⟩ := processEntriesWith_success
      (fun c s' => download_dropbox_folder env cfg (fuel + 2) c s') env cfg cp hd ha
      p1.entries s hf1
    obtain ⟨dd, aa, h2s⟩ := step2
      ((⟨d, a, s.evs ++ evsOfEntries env.rlkey cfg cp p1.entries⟩ : St).emit
        (.listContinueCall p1.cursor))
    refine ⟨dd, aa, ?_⟩
    rw [processPagesWith]
    simp only [he, hm1, if_true, h2]
    rw [h2s]
    simp [St.emit, List.append_assoc]
  obtain ⟨dd, aa, hs1⟩ := step1 (st.emit (.listFolderCall (listPathOf cp)))
  have hmain : (download_dropbox_folder env cfg (fuel + 3) cp st).evs =
      st.evs ++ [.listFolderCall (listPathOf cp)]
        ++ evsOfEntries env.rlkey cfg cp p1.entries
        ++ [.listContinueCall p1.cursor]
        ++ evsOfEntries env.rlkey cfg cp p2.entries
        ++ [.listContinueCall p2.cursor]
        ++ evsOfEntries env.rlkey cfg cp p3.entries := by
    have hsucc : fuel + 3 = (fuel + 2) + 1 := rfl
    rw [hsucc, download_dropbox_folder]
    simp only [h1]
    rw [hs1]
    simp [St.emit, List.append_assoc]
  refine ⟨hmain, ?_⟩
  rw [hmain]
  simp only [List.filter_append, filter_evsOfEntries env.rlkey cfg cp p1.entries hf1,
    filter_evsOfEntries env.rlkey cfg cp p2.entries hf2,
    filter_evsOfEntries env.rlkey cfg cp p3.entries hf3, List.map_append]
  simp [isProcessEv, List.append_assoc]

/-- Witness for C3 on the `c3Env` stub: three single-file pages chained
by cursors 1 and 2. -/
theorem pagination_visits_all_pages_witness :
    (download_dropbox_folder c3Env mainCfg 3 none ⟨0, 0, []⟩).evs =
      (St.mk 0 0 []).evs ++ [.listFolderCall (listPathOf none)]
        ++ evsOfEntries c3Env.rlkey mainCfg none [Entry.file "a" "ia"]
        ++ [.listContinueCall 1]
        ++ evsOfEntries c3Env.rlkey mainCfg none [Entry.file "b" "ib"]
        ++ [.listContinueCall 2]
        ++ evsOfEntries c3Env.rlkey mainCfg none [Entry.file "c" "ic"] ∧
    ((download_dropbox_folder c3Env mainCfg 3 none ⟨0, 0, []⟩).evs.filter isProcessEv) =
      (St.mk 0 0 []).evs.filter isProcessEv ++
        ([Entry.file "a" "ia"] ++ [Entry.file "b" "ib"] ++ [Entry.file "c" "ic"]).map
          (processEvOf mainCfg none) :=
  pagination_visits_all_pages c3Env mainCfg 0 none ⟨0, 0, []⟩
    ⟨[Entry.file "a" "ia"], true, 1⟩ ⟨[Entry.file "b" "ib"], true, 2⟩
    ⟨[Entry.file "c" "ic"], false, 3⟩
    rfl rfl rfl rfl rfl rfl
    (fun e he => ⟨"a", "ia", by rwa [List.mem_singleton] at he⟩)
    (fun e he => ⟨"b", "ib", by rwa [List.mem_singleton] at he⟩)
    (fun e he => ⟨"c", "ic", by rwa [List.mem_singleton] at he⟩)
    (fun _ _ => rfl) (fun _ _ _ => rfl)

end DropboxDownloader
